import Mathlib

/-!
Shallow embedding of the exam-attempt lifecycle of the LMS backend
(`Backend/app/crud/student_exam.py`, `Backend/app/crud/exam_attempt.py`,
`Backend/app/routes/student_exams.py`, `Backend/app/crud/subscription.py`,
`Backend/app/core/scheduler.py`).

Database rows become Lean structures, the SQLAlchemy session becomes an
explicit `DB` record of row lists, `query(...).first()` becomes `List.find?`,
`datetime.now()` becomes an explicit `now : Int` parameter, and Python floats
(`Float` columns, `round(x, 2)`) are modelled over `ℚ`.  An operation that can
raise returns the committed database state together with an `Except` outcome:
the first component is the state that survives the request (Python raises
after a commit leave the committed rows behind; raises before any commit leave
the state untouched, since uncommitted ORM changes are discarded when the
request's session is closed).
-/

namespace LMS

/-- `SubscriptionStatus` enum of `models.py`. -/
inductive SubscriptionStatus
  | active
  | expired
  | cancelled
deriving DecidableEq, Repr, BEq

/-- `ExamStatus` enum of `models.py`. -/
inductive ExamStatus
  | not_started
  | in_progress
  | completed
deriving DecidableEq, Repr, BEq

/-- A `Subscription` plan row: only the field the attempt logic reads.
`max_exams` is a nullable Integer column. -/
structure SubscriptionPlan where
  maxExams : Option Int
deriving DecidableEq, Repr

/-- A `UserSubscription` row.  `plan` is the resolution of
`subscription_plan_package.subscription`; `none` models the dangling-join
case that the code reports as "Invalid subscription configuration". -/
structure UserSubscription where
  id : Nat
  userId : Nat
  status : SubscriptionStatus
  endDate : Int
  plan : Option SubscriptionPlan
deriving DecidableEq, Repr

/-- An `Exam` row: the fields read by start/complete. -/
structure Exam where
  id : Nat
  startDatetime : Option Int
  endDatetime : Option Int
  maxQuestions : Nat
deriving DecidableEq, Repr

/-- An `ExamQuestion` join row with its per-question `marks` weight. -/
structure ExamQuestion where
  examId : Nat
  questionId : Nat
  marks : ℚ
deriving DecidableEq, Repr

/-- An answer option row (`Answer`): only `id` and `is_correct` are read. -/
structure AnswerOption where
  id : Nat
  isCorrect : Bool
deriving DecidableEq, Repr

/-- A `StudentExam` session row. -/
structure StudentExam where
  id : Nat
  studentId : Nat
  examId : Nat
  status : ExamStatus
deriving DecidableEq, Repr

/-- A `StudentAnswer` row. -/
structure StudentAnswer where
  studentExamId : Nat
  questionId : Nat
  answerId : Option Nat
  isCorrect : Bool
deriving DecidableEq, Repr

/-- An `ExamAttempt` ledger row, keyed by (user_subscription, exam). -/
structure ExamAttempt where
  userSubscriptionId : Nat
  examId : Nat
  remainingAttempts : Int
deriving DecidableEq, Repr

/-- An `ExamResult` row: one scored snapshot per (session, attempt_number). -/
structure ExamResult where
  studentExamId : Nat
  attemptNumber : Nat
  totalQuestions : Nat
  correctAnswers : Nat
  scorePercentage : ℚ
  obtainedMarks : ℚ
  maxMarks : ℚ
  passedStatus : Bool
deriving DecidableEq, Repr

/-- The relational store, one list per table, plus the next session id the
store would allocate. -/
structure DB where
  exams : List Exam
  examQuestions : List ExamQuestion
  answerOptions : List AnswerOption
  subscriptions : List UserSubscription
  attempts : List ExamAttempt
  studentExams : List StudentExam
  answers : List StudentAnswer
  results : List ExamResult
  nextStudentExamId : Nat
deriving DecidableEq, Repr

/-- The error conditions the create/start/complete paths raise. -/
inductive Err
  | studentExamNotFound
  | examNotFound
  | examNotStartedYet
  | examEnded
  | noActiveSubscription
  | invalidSubscriptionConfig
  | noRemainingAttempts
  | forbidden
deriving DecidableEq, Repr

/-- Replace the first element satisfying `p` (an ORM in-place row update). -/
def updateFirst (p : α → Bool) (f : α → α) : List α → List α
  | [] => []
  | x :: xs => if p x then f x :: xs else x :: updateFirst p f xs

/-- Python `round(x, 2)` modelled over `ℚ`. -/
def round2 (q : ℚ) : ℚ := ((round (q * 100) : ℤ) : ℚ) / 100

/-- The active-subscription query used by create/start
(`status == active AND end_date >= now`, `.first()`). -/
def findActiveSubscription (db : DB) (userId : Nat) (now : Int) :
    Option UserSubscription :=
  db.subscriptions.find? fun s =>
    s.userId == userId && s.status == SubscriptionStatus.active
      && decide (now ≤ s.endDate)

/-- Python `subscription.max_exams or 1`: `None` and `0` are falsy. -/
def effectiveMaxExams (p : SubscriptionPlan) : Int :=
  match p.maxExams with
  | none => 1
  | some m => if m = 0 then 1 else m

/-- The (user_subscription_id, exam_id) ledger-row filter. -/
def attemptKey (userSubscriptionId examId : Nat) (a : ExamAttempt) : Bool :=
  a.userSubscriptionId == userSubscriptionId && a.examId == examId

/-- `crud.student_exam.create_student_exam`.  The session row is added and
committed before the subscription checks run, so on `ValueError` the row
survives; on success a ledger row seeded with `max_attempts - 1` is also
committed.  Returns the committed state and the outcome (new session id). -/
def crudCreateStudentExam (db : DB) (now : Int) (studentId examId : Nat)
    (initStatus : ExamStatus) : DB × Except Err Nat :=
  let sid := db.nextStudentExamId
  let db1 : DB := { db with
    studentExams := db.studentExams ++ [⟨sid, studentId, examId, initStatus⟩],
    nextStudentExamId := sid + 1 }
  match findActiveSubscription db1 studentId now with
  | none => (db1, Except.error Err.noActiveSubscription)
  | some sub =>
    match sub.plan with
    | none => (db1, Except.error Err.invalidSubscriptionConfig)
    | some plan =>
      let maxAttempts := effectiveMaxExams plan
      let db2 : DB := { db1 with
        attempts := db1.attempts ++ [⟨sub.id, examId, maxAttempts - 1⟩] }
      (db2, Except.ok sid)

/-- `crud.exam_attempt.create_or_update_exam_attempt`: create the ledger row
with `remaining = max_attempts` if absent; if present and its stored value is
below `max_attempts`, raise it to `max_attempts`. -/
def createOrUpdateExamAttempt (db : DB) (userSubscriptionId examId : Nat)
    (maxAttempts : Int) : DB :=
  match db.attempts.find? (attemptKey userSubscriptionId examId) with
  | some a =>
    if a.remainingAttempts < maxAttempts then
      { db with attempts := (updateFirst (attemptKey userSubscriptionId examId)
          (fun b => { b with remainingAttempts := maxAttempts }) db.attempts) }
    else db
  | none =>
    { db with attempts := db.attempts ++ [⟨userSubscriptionId, examId, maxAttempts⟩] }

/-- `crud.exam_attempt.get_remaining_attempts`: the stored value when a ledger
row exists, `0` otherwise (`attempt.remaining_attempts if attempt else 0`). -/
def getRemainingAttempts (db : DB) (userSubscriptionId examId : Nat) : Int :=
  match db.attempts.find? (attemptKey userSubscriptionId examId) with
  | some att => att.remainingAttempts
  | none => 0

/-- The `POST /student-exams/` route (`routes.student_exams.create_student_exam`):
ownership check, exam-exists check, idempotent return of an existing session,
subscription checks, then the CRUD create followed by
`create_or_update_exam_attempt` with the plan's `max_exams or 1`. -/
def routeCreateStudentExam (db : DB) (now : Int)
    (currentUserId studentId examId : Nat) : DB × Except Err Nat :=
  if studentId ≠ currentUserId then (db, Except.error Err.forbidden)
  else
    match db.exams.find? (fun e => e.id == examId) with
    | none => (db, Except.error Err.examNotFound)
    | some _ =>
      match db.studentExams.find?
          (fun se => se.studentId == studentId && se.examId == examId) with
      | some existing => (db, Except.ok existing.id)
      | none =>
        match findActiveSubscription db studentId now with
        | none => (db, Except.error Err.noActiveSubscription)
        | some sub =>
          match sub.plan with
          | none => (db, Except.error Err.invalidSubscriptionConfig)
          | some plan =>
            let res := crudCreateStudentExam db now studentId examId
              ExamStatus.not_started
            match res.2 with
            | Except.error e => (res.1, Except.error e)
            | Except.ok sid =>
              (createOrUpdateExamAttempt res.1 sub.id examId
                (effectiveMaxExams plan), Except.ok sid)

/-- `current_time < exam_start` when a start bound exists. -/
def startNotReached (e : Exam) (now : Int) : Bool :=
  match e.startDatetime with
  | some s => decide (now < s)
  | none => false

/-- `current_time > exam_end` when an end bound exists. -/
def endPassed (e : Exam) (now : Int) : Bool :=
  match e.endDatetime with
  | some t => decide (t < now)
  | none => false

/-- The mutation block of `start_student_exam` after all validations pass:
if the prior status is not `not_started`, hard-delete the session's submitted
answers; set the status to `in_progress`; decrement the ledger row. -/
def finishStart (db : DB) (sid : Nat) (priorStatus : ExamStatus)
    (userSubscriptionId examId : Nat) : DB :=
  let db1 : DB :=
    if priorStatus ≠ ExamStatus.not_started then
      { db with answers := db.answers.filter (fun a => a.studentExamId != sid) }
    else db
  let db2 : DB := { db1 with
    studentExams := updateFirst (fun se => se.id == sid)
      (fun se => { se with status := ExamStatus.in_progress }) db1.studentExams }
  { db2 with
    attempts := updateFirst (attemptKey userSubscriptionId examId)
      (fun a => { a with remainingAttempts := a.remainingAttempts - 1 })
      db2.attempts }

/-- `crud.student_exam.start_student_exam`.  Validation order follows the
source: session exists → exam exists → time window → active subscription →
plan resolvable → ledger permits another attempt (a missing ledger row is
created with `max_exams or 1` and then decremented with the rest).  All raises
happen before the single commit, so on error the state is returned unchanged. -/
def crudStartStudentExam (db : DB) (now : Int) (sid : Nat) :
    DB × Except Err Unit :=
  match db.studentExams.find? (fun se => se.id == sid) with
  | none => (db, Except.error Err.studentExamNotFound)
  | some se =>
    match db.exams.find? (fun e => e.id == se.examId) with
    | none => (db, Except.error Err.examNotFound)
    | some exam =>
      if startNotReached exam now then (db, Except.error Err.examNotStartedYet)
      else if endPassed exam now then (db, Except.error Err.examEnded)
      else
        match findActiveSubscription db se.studentId now with
        | none => (db, Except.error Err.noActiveSubscription)
        | some sub =>
          match sub.plan with
          | none => (db, Except.error Err.invalidSubscriptionConfig)
          | some plan =>
            match db.attempts.find? (attemptKey sub.id se.examId) with
            | none =>
              let db1 : DB := { db with
                attempts := db.attempts
                  ++ [⟨sub.id, se.examId, effectiveMaxExams plan⟩] }
              (finishStart db1 sid se.status sub.id se.examId, Except.ok ())
            | some att =>
              if att.remainingAttempts ≤ 0 then
                (db, Except.error Err.noRemainingAttempts)
              else
                (finishStart db sid se.status sub.id se.examId, Except.ok ())

/-- `crud.student_exam.create_student_answer`: the correctness flag is looked
up server-side from the authoritative `Answer` row; a new row is appended per
call (no upsert). -/
def crudCreateStudentAnswer (db : DB) (sid qid : Nat) (answerId : Option Nat) :
    DB :=
  let isCorrect :=
    match answerId with
    | some aid =>
      match db.answerOptions.find? (fun a => a.id == aid) with
      | some a => a.isCorrect
      | none => false
    | none => false
  { db with answers := db.answers ++ [⟨sid, qid, answerId, isCorrect⟩] }

/-- The Python dict `{answer.question_id: answer for answer in student_answers}`:
on duplicate keys the last row wins, so lookup is `find?` over the reverse. -/
def lastAnswerFor (answers : List StudentAnswer) (qid : Nat) :
    Option StudentAnswer :=
  answers.reverse.find? (fun a => a.questionId == qid)

/-- Whether the dict lookup for `qid` yields a correct submitted answer. -/
def answeredCorrectly (answers : List StudentAnswer) (qid : Nat) : Bool :=
  match lastAnswerFor answers qid with
  | some a => a.isCorrect
  | none => false

/-- The Python dict `{eq.question_id: eq.marks for eq in exam_questions}`:
last row wins on duplicate keys. -/
def marksFor (eqs : List ExamQuestion) (qid : Nat) : ℚ :=
  match eqs.reverse.find? (fun q => q.questionId == qid) with
  | some q => q.marks
  | none => 0

/-- The scoring block of `complete_student_exam` (values before the final
rounding applied by `create_exam_result`). -/
structure Scoring where
  totalQuestions : Nat
  correctAnswers : Nat
  obtainedMarks : ℚ
  maxMarks : ℚ
  scorePercentage : ℚ
  passedStatus : Bool
deriving DecidableEq, Repr

/-- Python local `total_possible_marks = sum(eq.marks for eq in exam_questions)`. -/
def totalPossibleMarks (eqs : List ExamQuestion) : ℚ :=
  (eqs.map (fun q => q.marks)).sum

/-- Python local `avg_mark_per_question = total_possible_marks /
len(exam_questions) if exam_questions else 0`. -/
def avgMarkPerQuestion (eqs : List ExamQuestion) : ℚ :=
  if eqs.isEmpty then 0 else totalPossibleMarks eqs / (eqs.length : ℚ)

/-- Python local `max_marks = avg_mark_per_question * total_questions`,
with `total_questions = exam.max_questions`. -/
def maxMarksFor (exam : Exam) (eqs : List ExamQuestion) : ℚ :=
  avgMarkPerQuestion eqs * (exam.maxQuestions : ℚ)

/-- The exam-questions whose dict-looked-up submitted answer is correct
(the loop body guard `if question_id in answered_questions ... is_correct`). -/
def correctEqsOf (eqs : List ExamQuestion) (sAnswers : List StudentAnswer) :
    List ExamQuestion :=
  eqs.filter (fun q => answeredCorrectly sAnswers q.questionId)

/-- Python local `obtained_marks`: the loop adds `question_marks[question_id]`
(the dict lookup) for each correctly answered exam-question. -/
def obtainedMarksOf (eqs : List ExamQuestion) (sAnswers : List StudentAnswer) :
    ℚ :=
  ((correctEqsOf eqs sAnswers).map (fun q => marksFor eqs q.questionId)).sum

/-- Python local `score_percentage = round(obtained / max * 100, 2) if
max_marks > 0 else 0`. -/
def scorePctOf (exam : Exam) (eqs : List ExamQuestion)
    (sAnswers : List StudentAnswer) : ℚ :=
  if 0 < maxMarksFor exam eqs then
    round2 (obtainedMarksOf eqs sAnswers / maxMarksFor exam eqs * 100)
  else 0

/-- The scoring computation of `complete_student_exam`:
`avg = total_possible / len(exam_questions)` (0 if none),
`max_marks = avg * exam.max_questions`, marks accumulated over exam-questions
whose dict-looked-up answer `is_correct`, percentage rounded to 2 places and
compared against the fixed 40.0 threshold (`passed = score >= 40.0`). -/
def computeScore (exam : Exam) (eqs : List ExamQuestion)
    (sAnswers : List StudentAnswer) : Scoring :=
  ⟨exam.maxQuestions, (correctEqsOf eqs sAnswers).length,
    obtainedMarksOf eqs sAnswers, maxMarksFor exam eqs,
    scorePctOf exam eqs sAnswers,
    decide ((40 : ℚ) ≤ scorePctOf exam eqs sAnswers)⟩

/-- `ORDER BY attempt_number DESC ... .first().attempt_number`, as the maximum
attempt number recorded for the session (0 when none, so `+ 1` starts at 1). -/
def latestAttemptNumber (results : List ExamResult) (sid : Nat) : Nat :=
  ((results.filter (fun r => r.studentExamId == sid)).map
    (fun r => r.attemptNumber)).foldl max 0

/-- `crud.student_exam.complete_student_exam`: load session and exam, score the
submitted answers, append a result row numbered `latest + 1` (rounding marks
and percentage to 2 places as `create_exam_result` does), and set the session
status to `completed` — with no check on the session's prior status. -/
def crudCompleteStudentExam (db : DB) (sid : Nat) : DB × Except Err Unit :=
  match db.studentExams.find? (fun se => se.id == sid) with
  | none => (db, Except.error Err.studentExamNotFound)
  | some se =>
    match db.exams.find? (fun e => e.id == se.examId) with
    | none => (db, Except.error Err.examNotFound)
    | some exam =>
      let sAnswers := db.answers.filter (fun a => a.studentExamId == sid)
      let eqs := db.examQuestions.filter (fun q => q.examId == exam.id)
      let sc := computeScore exam eqs sAnswers
      let attemptNumber := latestAttemptNumber db.results sid + 1
      let result : ExamResult := {
        studentExamId := sid
        attemptNumber := attemptNumber
        totalQuestions := sc.totalQuestions
        correctAnswers := sc.correctAnswers
        scorePercentage := round2 sc.scorePercentage
        obtainedMarks := round2 sc.obtainedMarks
        maxMarks := round2 sc.maxMarks
        passedStatus := sc.passedStatus }
      let db1 : DB := { db with results := db.results ++ [result] }
      let db2 : DB := { db1 with
        studentExams := updateFirst (fun s => s.id == sid)
          (fun s => { s with status := ExamStatus.completed }) db1.studentExams }
      (db2, Except.ok ())

/-- The `GET /{exam_id}/attempts` route
(`routes.student_exams.get_remaining_attempts`): resolves the active
subscription and its plan; if no ledger row exists yet it answers with the
plan's `max_exams or 1` as the remaining count, otherwise with the stored
value.  Returns `(remaining_attempts, max_attempts)`. -/
def routeGetRemainingAttempts (db : DB) (now : Int) (userId examId : Nat) :
    Except Err (Int × Int) :=
  match findActiveSubscription db userId now with
  | none => Except.error Err.noActiveSubscription
  | some sub =>
    match sub.plan with
    | none => Except.error Err.invalidSubscriptionConfig
    | some plan =>
      match db.attempts.find? (attemptKey sub.id examId) with
      | none =>
        Except.ok (effectiveMaxExams plan, effectiveMaxExams plan)
      | some att =>
        Except.ok (att.remainingAttempts, effectiveMaxExams plan)

/-- The sweeper row filter: `status == active AND end_date < now`. -/
def eligibleExpired (s : UserSubscription) (now : Int) : Bool :=
  s.status == SubscriptionStatus.active && decide (s.endDate < now)

/-- Chunking worker, structurally recursive on a fuel bound (one unit of
fuel per produced chunk; `l.length` units always suffice when `0 < n`). -/
def chunksGo (n : Nat) : Nat → List α → List (List α)
  | 0, _ => []
  | _, [] => []
  | fuel + 1, l => l.take n :: chunksGo n fuel (l.drop n)

/-- Split a list into consecutive chunks of size `n`
(Python `expired_subscriptions[i:i + batch_size]`). -/
def chunksOf (n : Nat) (l : List α) : List (List α) :=
  if n = 0 then [] else chunksGo n l.length l

/-- Commit one sweeper batch: flip each row whose id is in the batch to
`expired`. -/
def markBatchExpired (db : DB) (batch : List Nat) : DB :=
  { db with subscriptions := db.subscriptions.map (fun s =>
      if batch.contains s.id then { s with status := SubscriptionStatus.expired }
      else s) }

/-- `crud.subscription.update_expired_subscriptions`: query all eligible rows
once, process them in batches of 100, commit per batch; a batch whose commit
fails (batch index in `failingBatches`) is rolled back and processing
continues with the next batch.  Returns the committed state and the `count`
the function reports (incremented per row before the commit, so a rolled-back
batch still contributes to it, as in the source). -/
def updateExpiredSubscriptions (db : DB) (now : Int)
    (failingBatches : List Nat) : DB × Nat :=
  let expiredIds := (db.subscriptions.filter
    (fun s => eligibleExpired s now)).map (fun s => s.id)
  if expiredIds.isEmpty then (db, 0)
  else
    (chunksOf 100 expiredIds).enum.foldl
      (fun acc ib =>
        if failingBatches.contains ib.1 then (acc.1, acc.2 + ib.2.length)
        else (markBatchExpired acc.1 ib.2, acc.2 + ib.2.length))
      (db, 0)

/-! ### Generic helper lemmas -/

theorem updateFirst_find?_same {p : α → Bool} {f : α → α}
    (hf : ∀ a, p (f a) = p a) (l : List α) :
    (updateFirst p f l).find? p = (l.find? p).map f := by
  induction l with
  | nil => rfl
  | cons x xs ih =>
    by_cases hx : p x
    · simp [updateFirst, hx, List.find?_cons, hf]
    · simp [updateFirst, hx, List.find?_cons, ih]

theorem find?_append_singleton {p : α → Bool} {l : List α} {x : α}
    (hl : l.find? p = none) (hx : p x) : (l ++ [x]).find? p = some x := by
  rw [List.find?_append, hl]
  simp [List.find?_cons, hx]

theorem le_foldl_max_init (l : List Nat) (b : Nat) : b ≤ l.foldl max b := by
  induction l generalizing b with
  | nil => exact le_refl b
  | cons x xs ih => exact le_trans (le_max_left b x) (ih (max b x))

theorem foldl_max_le_of_mem {l : List Nat} {a : Nat} (h : a ∈ l) :
    a ≤ l.foldl max 0 := by
  have key : ∀ (l : List Nat) (b : Nat), a ∈ l → a ≤ l.foldl max b := by
    intro l
    induction l with
    | nil => intro b h; cases h
    | cons x xs ih =>
      intro b h
      rcases List.mem_cons.mp h with rfl | h'
      · exact le_trans (le_max_right b a) (le_foldl_max_init xs (max b a))
      · exact ih (max b x) h'
  exact key l 0 h

theorem nodup_map_inj {f : α → β} {l : List α}
    (h : (l.map f).Nodup) {x y : α} (hx : x ∈ l) (hy : y ∈ l)
    (hxy : f x = f y) : x = y :=
  List.inj_on_of_nodup_map h hx hy hxy

theorem round_mono_q {x y : ℚ} (h : x ≤ y) : round x ≤ round y := by
  rw [round_eq, round_eq]
  exact Int.floor_le_floor (by linarith)

theorem round2_round2 (q : ℚ) : round2 (round2 q) = round2 q := by
  unfold round2
  rw [div_mul_cancel₀]
  · rw [round_intCast]
  · norm_num

theorem round2_zero : round2 0 = 0 := by
  unfold round2
  norm_num

theorem round2_nonneg {q : ℚ} (h : 0 ≤ q) : 0 ≤ round2 q := by
  unfold round2
  have h1 : (0 : ℤ) ≤ round (q * 100) := by
    have h2 := round_mono_q (by linarith : (0 : ℚ) ≤ q * 100)
    rwa [round_zero] at h2
  have h3 : (0 : ℚ) ≤ ((round (q * 100) : ℤ) : ℚ) := by exact_mod_cast h1
  exact div_nonneg h3 (by norm_num)

theorem round2_natCast (n : ℕ) : round2 ((n : ℚ)) = (n : ℚ) := by
  unfold round2
  rw [show ((n : ℚ) * 100) = (((n * 100 : ℕ)) : ℚ) by push_cast; ring,
    round_natCast]
  push_cast
  rw [mul_div_assoc]
  norm_num

theorem round2_ofNat (n : ℕ) [n.AtLeastTwo] :
    round2 (no_index (OfNat.ofNat n : ℚ)) = OfNat.ofNat n := by
  exact_mod_cast round2_natCast n

theorem round2_one : round2 (1 : ℚ) = 1 := by
  have h := round2_natCast 1
  simpa using h

theorem round2_le_100 {q : ℚ} (h : q ≤ 100) : round2 q ≤ 100 := by
  unfold round2
  have h1 : round (q * 100) ≤ round ((10000 : ℤ) : ℚ) :=
    round_mono_q (by push_cast; linarith)
  rw [round_intCast] at h1
  rw [div_le_iff₀ (by norm_num : (0 : ℚ) < 100)]
  calc ((round (q * 100) : ℤ) : ℚ) ≤ ((10000 : ℤ) : ℚ) := by exact_mod_cast h1
    _ = 100 * 100 := by norm_num

/-! ### The scoring formula as the specification states it (§4.4)

These definitions are written from the spec's wording, to be compared with
`computeScore`, which is written from the source. -/

/-- Spec §4.4 step 1: `average_mark_per_question = sum(all exam-question
marks) / count(exam-question rows)` (zero if no rows). -/
def specAverageMarkPerQuestion (eqs : List ExamQuestion) : ℚ :=
  if eqs.length = 0 then 0
  else (eqs.map (fun q => q.marks)).sum / (eqs.length : ℚ)

/-- Spec §4.4 step 2: `max_marks_for_attempt = average_mark_per_question *
max_questions`. -/
def specMaxMarksForAttempt (eqs : List ExamQuestion) (maxQuestions : Nat) : ℚ :=
  specAverageMarkPerQuestion eqs * (maxQuestions : ℚ)

/-- Spec §4.4 step 3: accumulate the configured marks of each exam-question
whose submitted answer has `is_correct` true. -/
def specObtainedMarks (eqs : List ExamQuestion) (ans : List StudentAnswer) : ℚ :=
  ((eqs.filter (fun q =>
    ans.any (fun a => a.questionId == q.questionId && a.isCorrect))).map
      (fun q => q.marks)).sum

/-- Spec §4.4 step 3: `correct_answers` counts those exam-questions. -/
def specCorrectAnswers (eqs : List ExamQuestion) (ans : List StudentAnswer) :
    Nat :=
  (eqs.filter (fun q =>
    ans.any (fun a => a.questionId == q.questionId && a.isCorrect))).length

/-- Spec §4.4 step 4: `score_percentage = round(obtained / max * 100, 2)` if
`max_marks_for_attempt > 0` else `0`. -/
def specScorePercentage (eqs : List ExamQuestion) (maxQuestions : Nat)
    (ans : List StudentAnswer) : ℚ :=
  if 0 < specMaxMarksForAttempt eqs maxQuestions then
    round2 (specObtainedMarks eqs ans / specMaxMarksForAttempt eqs maxQuestions * 100)
  else 0

/-! ### Scoring bridge lemmas -/

theorem answeredCorrectly_eq_any {ans : List StudentAnswer} {qid : Nat}
    (h : (ans.map (fun a => a.questionId)).Nodup) :
    answeredCorrectly ans qid
      = ans.any (fun a => a.questionId == qid && a.isCorrect) := by
  unfold answeredCorrectly lastAnswerFor
  cases hf : ans.reverse.find? (fun a => a.questionId == qid) with
  | none =>
    rw [List.find?_eq_none] at hf
    symm
    rw [List.any_eq_false]
    intro a ha hpa
    have := hf a (List.mem_reverse.mpr ha)
    simp only [Bool.and_eq_true, beq_iff_eq] at hpa this
    exact this (by simp [hpa.1])
  | some a =>
    have hamem : a ∈ ans := List.mem_reverse.mp (List.mem_of_find?_eq_some hf)
    have haq : a.questionId = qid := by
      have := List.find?_some hf
      simpa using this
    show a.isCorrect = ans.any fun b => b.questionId == qid && b.isCorrect
    cases hc : a.isCorrect with
    | true =>
      symm
      rw [List.any_eq_true]
      exact ⟨a, hamem, by simp [haq, hc]⟩
    | false =>
      symm
      rw [List.any_eq_false]
      intro b hb hpb
      simp only [Bool.and_eq_true, beq_iff_eq] at hpb
      have hba : b = a := nodup_map_inj h hb hamem (by rw [hpb.1, haq])
      rw [hba, hc] at hpb
      exact Bool.false_ne_true hpb.2


theorem marksFor_eq {eqs : List ExamQuestion} {q : ExamQuestion}
    (h : (eqs.map (fun x => x.questionId)).Nodup) (hq : q ∈ eqs) :
    marksFor eqs q.questionId = q.marks := by
  unfold marksFor
  cases hf : eqs.reverse.find? (fun x => x.questionId == q.questionId) with
  | none =>
    rw [List.find?_eq_none] at hf
    have := hf q (List.mem_reverse.mpr hq)
    simp at this
  | some b =>
    have hbmem : b ∈ eqs := List.mem_reverse.mp (List.mem_of_find?_eq_some hf)
    have hbq : b.questionId = q.questionId := by
      have := List.find?_some hf
      simpa using this
    have hbqeq : b = q := nodup_map_inj h hbmem hq hbq
    rw [hbqeq]

theorem avgMark_eq_spec (eqs : List ExamQuestion) :
    avgMarkPerQuestion eqs = specAverageMarkPerQuestion eqs := by
  unfold avgMarkPerQuestion specAverageMarkPerQuestion totalPossibleMarks
  cases eqs <;> simp

theorem correctEqs_eq_spec {eqs : List ExamQuestion} {ans : List StudentAnswer}
    (hA : (ans.map (fun a => a.questionId)).Nodup) :
    correctEqsOf eqs ans = eqs.filter (fun q =>
      ans.any (fun a => a.questionId == q.questionId && a.isCorrect)) :=
  List.filter_congr (fun _ _ => answeredCorrectly_eq_any hA)

theorem obtained_eq_spec {eqs : List ExamQuestion} {ans : List StudentAnswer}
    (hQ : (eqs.map (fun x => x.questionId)).Nodup)
    (hA : (ans.map (fun a => a.questionId)).Nodup) :
    obtainedMarksOf eqs ans = specObtainedMarks eqs ans := by
  unfold obtainedMarksOf specObtainedMarks
  rw [correctEqs_eq_spec hA]
  exact congrArg List.sum (List.map_congr_left fun q hmem =>
    marksFor_eq hQ (List.mem_of_mem_filter hmem))

theorem maxMarks_eq_spec (exam : Exam) (eqs : List ExamQuestion) :
    maxMarksFor exam eqs = specMaxMarksForAttempt eqs exam.maxQuestions := by
  unfold maxMarksFor specMaxMarksForAttempt
  rw [avgMark_eq_spec]

theorem scorePct_eq_spec {exam : Exam} {eqs : List ExamQuestion}
    {ans : List StudentAnswer}
    (hQ : (eqs.map (fun x => x.questionId)).Nodup)
    (hA : (ans.map (fun a => a.questionId)).Nodup) :
    scorePctOf exam eqs ans = specScorePercentage eqs exam.maxQuestions ans := by
  unfold scorePctOf specScorePercentage
  rw [obtained_eq_spec hQ hA, maxMarks_eq_spec]

theorem computeScore_eq_spec {exam : Exam} {eqs : List ExamQuestion}
    {ans : List StudentAnswer}
    (hQ : (eqs.map (fun x => x.questionId)).Nodup)
    (hA : (ans.map (fun a => a.questionId)).Nodup) :
    (computeScore exam eqs ans).obtainedMarks = specObtainedMarks eqs ans ∧
    (computeScore exam eqs ans).correctAnswers = specCorrectAnswers eqs ans ∧
    (computeScore exam eqs ans).maxMarks
      = specMaxMarksForAttempt eqs exam.maxQuestions ∧
    (computeScore exam eqs ans).scorePercentage
      = specScorePercentage eqs exam.maxQuestions ans :=
  ⟨obtained_eq_spec hQ hA,
   congrArg List.length (correctEqs_eq_spec hA),
   maxMarks_eq_spec exam eqs,
   scorePct_eq_spec hQ hA⟩

/-- Unfolding of `complete_student_exam` once the session and its exam
resolve: the result row appended and the status set to `completed`. -/
theorem crudComplete_eq {db : DB} {sid : Nat} {se : StudentExam} {exam : Exam}
    (h1 : db.studentExams.find? (fun s => s.id == sid) = some se)
    (h2 : db.exams.find? (fun e => e.id == se.examId) = some exam) :
    crudCompleteStudentExam db sid =
      (let sc := computeScore exam
        (db.examQuestions.filter (fun q => q.examId == exam.id))
        (db.answers.filter (fun a => a.studentExamId == sid))
       ({ db with
          results := db.results ++ [⟨sid, latestAttemptNumber db.results sid + 1,
            sc.totalQuestions, sc.correctAnswers, round2 sc.scorePercentage,
            round2 sc.obtainedMarks, round2 sc.maxMarks, sc.passedStatus⟩],
          studentExams := updateFirst (fun s => s.id == sid)
            (fun s => { s with status := ExamStatus.completed })
            db.studentExams }, Except.ok ())) := by
  simp only [crudCompleteStudentExam, h1, h2]

theorem round2_specScorePercentage (eqs : List ExamQuestion) (mq : Nat)
    (ans : List StudentAnswer) :
    round2 (specScorePercentage eqs mq ans) = specScorePercentage eqs mq ans := by
  unfold specScorePercentage
  split
  · exact round2_round2 _
  · exact round2_zero

theorem marksFor_nonneg {eqs : List ExamQuestion}
    (hm : ∀ q ∈ eqs, 0 ≤ q.marks) (qid : Nat) : 0 ≤ marksFor eqs qid := by
  unfold marksFor
  cases hf : eqs.reverse.find? (fun x => x.questionId == qid) with
  | none => exact le_refl 0
  | some b => exact hm b (List.mem_reverse.mp (List.mem_of_find?_eq_some hf))

theorem obtainedMarksOf_nonneg {eqs : List ExamQuestion}
    {ans : List StudentAnswer} (hm : ∀ q ∈ eqs, 0 ≤ q.marks) :
    0 ≤ obtainedMarksOf eqs ans := by
  unfold obtainedMarksOf
  apply List.sum_nonneg
  intro x hx
  rcases List.mem_map.mp hx with ⟨q, _, rfl⟩
  exact marksFor_nonneg hm q.questionId

theorem scorePctOf_round2 (exam : Exam) (eqs : List ExamQuestion)
    (ans : List StudentAnswer) :
    round2 (scorePctOf exam eqs ans) = scorePctOf exam eqs ans := by
  unfold scorePctOf
  split
  · exact round2_round2 _
  · exact round2_zero

theorem scorePctOf_nonneg {exam : Exam} {eqs : List ExamQuestion}
    {ans : List StudentAnswer} (hm : ∀ q ∈ eqs, 0 ≤ q.marks) :
    0 ≤ scorePctOf exam eqs ans := by
  have hobt := @obtainedMarksOf_nonneg eqs ans hm
  unfold scorePctOf
  split
  · next hpos =>
    exact round2_nonneg
      (mul_nonneg (div_nonneg hobt (le_of_lt hpos)) (by norm_num))
  · exact le_refl 0

theorem scorePctOf_le_100 {exam : Exam} {eqs : List ExamQuestion}
    {ans : List StudentAnswer}
    (hle : obtainedMarksOf eqs ans ≤ maxMarksFor exam eqs) :
    scorePctOf exam eqs ans ≤ 100 := by
  unfold scorePctOf
  split
  · next hpos =>
    apply round2_le_100
    have h1 : obtainedMarksOf eqs ans / maxMarksFor exam eqs ≤ (1 : ℚ) :=
      (div_le_one hpos).mpr hle
    calc obtainedMarksOf eqs ans / maxMarksFor exam eqs * (100 : ℚ)
        ≤ 1 * 100 := mul_le_mul_of_nonneg_right h1 (by norm_num)
      _ = 100 := by norm_num
  · norm_num

/-! ### C1: the scoring engine follows the §4.4 normalization formula -/

/-- The C1 scenario database: an exam with `max_questions = 4` but only two
exam-question rows each worth 10 marks, with both questions answered
correctly by session 0. -/
def c1DB : DB := {
  exams := [⟨1, none, none, 4⟩]
  examQuestions := [⟨1, 1, 10⟩, ⟨1, 2, 10⟩]
  answerOptions := []
  subscriptions := []
  attempts := []
  studentExams := [⟨0, 1, 1, ExamStatus.in_progress⟩]
  answers := [⟨0, 1, none, true⟩, ⟨0, 2, none, true⟩]
  results := []
  nextStudentExamId := 1 }

/-- C1: for every completed session, the persisted result follows the §4.4
normalization formula: `max_marks = (sum of marks / count of rows) *
max_questions`, obtained marks and correct count accumulate over correctly
answered exam-questions, `score = round(obtained / max * 100, 2)` when
`max > 0` else `0`, and `passed = (score ≥ 40)`; and the scenario with
`max_questions = 4` but only two 10-mark rows, both correct, yields
`obtained_marks = 20` and `score_percentage = 50`. -/
theorem C1_scoring_formula (db : DB) (sid : Nat) (se : StudentExam)
    (exam : Exam)
    (h1 : db.studentExams.find? (fun s => s.id == sid) = some se)
    (h2 : db.exams.find? (fun e => e.id == se.examId) = some exam)
    (hQ : ((db.examQuestions.filter (fun q => q.examId == exam.id)).map
      (fun x => x.questionId)).Nodup)
    (hA : ((db.answers.filter (fun a => a.studentExamId == sid)).map
      (fun a => a.questionId)).Nodup) :
    ((crudCompleteStudentExam db sid).2 = Except.ok () ∧
      ∃ r : ExamResult,
        (crudCompleteStudentExam db sid).1.results = db.results ++ [r] ∧
        r.obtainedMarks = round2 (specObtainedMarks
          (db.examQuestions.filter (fun q => q.examId == exam.id))
          (db.answers.filter (fun a => a.studentExamId == sid))) ∧
        r.correctAnswers = specCorrectAnswers
          (db.examQuestions.filter (fun q => q.examId == exam.id))
          (db.answers.filter (fun a => a.studentExamId == sid)) ∧
        r.maxMarks = round2 (specMaxMarksForAttempt
          (db.examQuestions.filter (fun q => q.examId == exam.id))
          exam.maxQuestions) ∧
        r.scorePercentage = specScorePercentage
          (db.examQuestions.filter (fun q => q.examId == exam.id))
          exam.maxQuestions
          (db.answers.filter (fun a => a.studentExamId == sid)) ∧
        (r.passedStatus = true ↔ (40 : ℚ) ≤ specScorePercentage
          (db.examQuestions.filter (fun q => q.examId == exam.id))
          exam.maxQuestions
          (db.answers.filter (fun a => a.studentExamId == sid)))) ∧
    (crudCompleteStudentExam c1DB 0).1.results.map
      (fun r => (r.obtainedMarks, r.scorePercentage)) = [((20 : ℚ), (50 : ℚ))] := by
  obtain ⟨hobt, hcorr, hmax, hpct⟩ := @computeScore_eq_spec exam
    (db.examQuestions.filter (fun q => q.examId == exam.id))
    (db.answers.filter (fun a => a.studentExamId == sid)) hQ hA
  refine ⟨⟨?_, ?_⟩, ?_⟩
  · rw [crudComplete_eq h1 h2]
  · rw [crudComplete_eq h1 h2]
    refine ⟨_, rfl, ?_, ?_, ?_, ?_, ?_⟩
    · dsimp only
      rw [hobt]
    · dsimp only
      rw [hcorr]
    · dsimp only
      rw [hmax]
    · dsimp only
      rw [hpct, round2_specScorePercentage]
    · show decide ((40 : ℚ) ≤ scorePctOf exam
          (db.examQuestions.filter (fun q => q.examId == exam.id))
          (db.answers.filter (fun a => a.studentExamId == sid))) = true ↔ _
      rw [scorePct_eq_spec hQ hA]
      exact decide_eq_true_iff
  · simp +decide [crudCompleteStudentExam, c1DB, computeScore, correctEqsOf,
      obtainedMarksOf, maxMarksFor, avgMarkPerQuestion, totalPossibleMarks,
      scorePctOf, marksFor, answeredCorrectly, lastAnswerFor,
      latestAttemptNumber, updateFirst, List.find?, List.filter]
    norm_num [round2_ofNat, round2_round2]

/-- Witness for C1 at the scenario database. -/
theorem C1_scoring_formula_witness :
    (crudCompleteStudentExam c1DB 0).2 = Except.ok () :=
  (C1_scoring_formula c1DB 0 ⟨0, 1, 1, ExamStatus.in_progress⟩
    ⟨1, none, none, 4⟩ (by decide) (by decide) (by decide) (by decide)).1.1

/-! ### C5: bounds on persisted result rows -/

/-- A database refuting the claim that `score_percentage` always lies in
[0, 100]: the exam declares `max_questions = 1` while two exam-question rows
worth 10 marks each exist and both were answered correctly, so
`max_marks = 10` but `obtained_marks = 20`. -/
def c5DB : DB := {
  exams := [⟨1, none, none, 1⟩]
  examQuestions := [⟨1, 1, 10⟩, ⟨1, 2, 10⟩]
  answerOptions := []
  subscriptions := []
  attempts := []
  studentExams := [⟨0, 1, 1, ExamStatus.in_progress⟩]
  answers := [⟨0, 1, none, true⟩, ⟨0, 2, none, true⟩]
  results := []
  nextStudentExamId := 1 }

/-- C5 counterexample: completing session 0 of `c5DB` records a result row
with `score_percentage = 200`, outside [0, 100]. -/
theorem C5_score_above_100_counterexample :
    (crudCompleteStudentExam c5DB 0).1.results.map
      (fun r => r.scorePercentage) = [(200 : ℚ)] ∧ ¬ ((200 : ℚ) ≤ 100) := by
  constructor
  · simp +decide [crudCompleteStudentExam, c5DB, computeScore, correctEqsOf,
      obtainedMarksOf, maxMarksFor, avgMarkPerQuestion, totalPossibleMarks,
      scorePctOf, marksFor, answeredCorrectly, lastAnswerFor,
      latestAttemptNumber, updateFirst, List.find?, List.filter]
    norm_num [round2_ofNat, round2_round2]
  · norm_num

/-- C5 (amended): for every result row created by completing a session with
nonnegative per-question marks, `score_percentage ≥ 0` and
`passed == (score_percentage ≥ 40)`; the upper bound `score_percentage ≤ 100`
holds whenever the obtained marks do not exceed the normalized
`max_marks_for_attempt` (which can fail when more exam-question rows exist
than `max_questions`, as the counterexample shows). -/
theorem C5_result_bounds (db : DB) (sid : Nat) (se : StudentExam) (exam : Exam)
    (h1 : db.studentExams.find? (fun s => s.id == sid) = some se)
    (h2 : db.exams.find? (fun e => e.id == se.examId) = some exam)
    (hm : ∀ q ∈ db.examQuestions.filter (fun q => q.examId == exam.id),
      0 ≤ q.marks) :
    ∃ r : ExamResult,
      (crudCompleteStudentExam db sid).1.results = db.results ++ [r] ∧
      0 ≤ r.scorePercentage ∧
      (r.passedStatus = true ↔ (40 : ℚ) ≤ r.scorePercentage) ∧
      (obtainedMarksOf (db.examQuestions.filter (fun q => q.examId == exam.id))
          (db.answers.filter (fun a => a.studentExamId == sid))
        ≤ maxMarksFor exam
          (db.examQuestions.filter (fun q => q.examId == exam.id)) →
        r.scorePercentage ≤ 100) := by
  rw [crudComplete_eq h1 h2]
  refine ⟨_, rfl, ?_, ?_, ?_⟩
  · show 0 ≤ round2 (scorePctOf exam
      (db.examQuestions.filter (fun q => q.examId == exam.id))
      (db.answers.filter (fun a => a.studentExamId == sid)))
    rw [scorePctOf_round2]
    exact scorePctOf_nonneg hm
  · show decide ((40 : ℚ) ≤ scorePctOf exam
        (db.examQuestions.filter (fun q => q.examId == exam.id))
        (db.answers.filter (fun a => a.studentExamId == sid))) = true
      ↔ (40 : ℚ) ≤ round2 (scorePctOf exam
        (db.examQuestions.filter (fun q => q.examId == exam.id))
        (db.answers.filter (fun a => a.studentExamId == sid)))
    rw [scorePctOf_round2]
    exact decide_eq_true_iff
  · intro hle
    show round2 (scorePctOf exam
      (db.examQuestions.filter (fun q => q.examId == exam.id))
      (db.answers.filter (fun a => a.studentExamId == sid))) ≤ 100
    rw [scorePctOf_round2]
    exact scorePctOf_le_100 hle

/-- Witness database for C5: a session with an exam and no exam-question
rows at all. -/
def c5wDB : DB := {
  exams := [⟨1, none, none, 1⟩]
  examQuestions := []
  answerOptions := []
  subscriptions := []
  attempts := []
  studentExams := [⟨0, 1, 1, ExamStatus.in_progress⟩]
  answers := []
  results := []
  nextStudentExamId := 1 }

/-- Witness for C5 at a concrete database. -/
theorem C5_result_bounds_witness :
    ∃ r : ExamResult,
      (crudCompleteStudentExam c5wDB 0).1.results = c5wDB.results ++ [r] ∧
      0 ≤ r.scorePercentage ∧
      (r.passedStatus = true ↔ (40 : ℚ) ≤ r.scorePercentage) ∧
      (obtainedMarksOf (c5wDB.examQuestions.filter (fun q => q.examId == 1))
          (c5wDB.answers.filter (fun a => a.studentExamId == 0))
        ≤ maxMarksFor ⟨1, none, none, 1⟩
          (c5wDB.examQuestions.filter (fun q => q.examId == 1)) →
        r.scorePercentage ≤ 100) :=
  C5_result_bounds c5wDB 0 ⟨0, 1, 1, ExamStatus.in_progress⟩
    ⟨1, none, none, 1⟩ (by decide) (by decide) (by simp [c5wDB])

/-! ### Shape lemmas for the start and create operations -/

theorem finishStart_results (db : DB) (sid : Nat) (st : ExamStatus)
    (subId examId : Nat) :
    (finishStart db sid st subId examId).results = db.results := by
  by_cases h : st ≠ ExamStatus.not_started <;> simp [finishStart, h]

theorem finishStart_subscriptions (db : DB) (sid : Nat) (st : ExamStatus)
    (subId examId : Nat) :
    (finishStart db sid st subId examId).subscriptions = db.subscriptions := by
  by_cases h : st ≠ ExamStatus.not_started <;> simp [finishStart, h]

theorem finishStart_answers_retake (db : DB) (sid : Nat) (st : ExamStatus)
    (subId examId : Nat) (hst : st ≠ ExamStatus.not_started) :
    (finishStart db sid st subId examId).answers
      = db.answers.filter (fun a => a.studentExamId != sid) := by
  simp [finishStart, hst]

/-- Any run of `start_student_exam` either fails before its single commit
(leaving the state untouched) or succeeds and commits exactly the
`finishStart` mutation over a base state that differs from the input at most
in a freshly inserted ledger row. -/
theorem crudStart_shape (db : DB) (now : Int) (sid : Nat) :
    ((∃ e, (crudStartStudentExam db now sid).2 = Except.error e) ∧
      (crudStartStudentExam db now sid).1 = db) ∨
    (∃ se subId db0,
      (crudStartStudentExam db now sid).2 = Except.ok () ∧
      db.studentExams.find? (fun s => s.id == sid) = some se ∧
      db0.answers = db.answers ∧ db0.results = db.results ∧
      db0.studentExams = db.studentExams ∧
      db0.subscriptions = db.subscriptions ∧
      (crudStartStudentExam db now sid).1
        = finishStart db0 sid se.status subId se.examId) := by
  unfold crudStartStudentExam
  repeat' split
  all_goals dsimp only
  all_goals try exact Or.inl ⟨⟨_, rfl⟩, rfl⟩
  · rename_i x4 se0 heq4 x3 ex0 heq3 hb1 hb2 x2 sub0 heq2 x1 plan0 heq1 x0 heq0
    exact Or.inr ⟨se0, sub0.id,
      { db with attempts := db.attempts
          ++ [⟨sub0.id, se0.examId, effectiveMaxExams plan0⟩] },
      rfl, heq4, rfl, rfl, rfl, rfl, rfl⟩
  · rename_i x4 se0 heq4 x3 ex0 heq3 hb1 hb2 x2 sub0 heq2 x1 plan0 heq1 x0 att0 heq0 hlt
    exact Or.inr ⟨se0, sub0.id, db, rfl, heq4, rfl, rfl, rfl, rfl, rfl⟩

/-- `create_student_exam` either returns the new session id, or raises after
having already committed the session row (and nothing else). -/
theorem crudCreate_shape (db : DB) (now : Int) (studentId examId : Nat)
    (st : ExamStatus) :
    (crudCreateStudentExam db now studentId examId st).2
      = Except.ok db.nextStudentExamId ∨
    ((∃ e, (crudCreateStudentExam db now studentId examId st).2
        = Except.error e) ∧
      (crudCreateStudentExam db now studentId examId st).1
        = { db with
            studentExams := db.studentExams
              ++ [⟨db.nextStudentExamId, studentId, examId, st⟩],
            nextStudentExamId := db.nextStudentExamId + 1 }) := by
  unfold crudCreateStudentExam
  dsimp only
  repeat' split
  all_goals first
    | exact Or.inl rfl
    | exact Or.inr ⟨⟨_, rfl⟩, rfl⟩

/-- Unfolding of a successful `create_student_exam`. -/
theorem crudCreate_ok (db : DB) (now : Int) (studentId examId : Nat)
    (st : ExamStatus) (sub : UserSubscription) (plan : SubscriptionPlan)
    (hsub : findActiveSubscription db studentId now = some sub)
    (hplan : sub.plan = some plan) :
    crudCreateStudentExam db now studentId examId st
      = ({ db with
          studentExams := db.studentExams
            ++ [⟨db.nextStudentExamId, studentId, examId, st⟩],
          attempts := db.attempts
            ++ [⟨sub.id, examId, effectiveMaxExams plan - 1⟩],
          nextStudentExamId := db.nextStudentExamId + 1 },
        Except.ok db.nextStudentExamId) := by
  have hsub1 : findActiveSubscription { db with
      studentExams := db.studentExams
        ++ [⟨db.nextStudentExamId, studentId, examId, st⟩],
      nextStudentExamId := db.nextStudentExamId + 1 } studentId now
      = some sub := hsub
  unfold crudCreateStudentExam
  dsimp only
  simp only [hsub1, hplan]

/-! ### C4: entitlement rejections and the surviving state -/

/-- A database with one exam and no subscription at all. -/
def c4DB : DB := {
  exams := [⟨1, none, none, 1⟩]
  examQuestions := []
  answerOptions := []
  subscriptions := []
  attempts := []
  studentExams := []
  answers := []
  results := []
  nextStudentExamId := 0 }

/-- C4 counterexample: the CRUD create commits the session row before the
subscription checks, so a create rejected with "No active subscription found"
still leaves a new session row behind — the state is not unchanged. -/
theorem C4_create_persists_counterexample :
    (crudCreateStudentExam c4DB 0 7 1 ExamStatus.not_started).2
      = Except.error Err.noActiveSubscription ∧
    (crudCreateStudentExam c4DB 0 7 1 ExamStatus.not_started).1.studentExams
      = [⟨0, 7, 1, ExamStatus.not_started⟩] ∧
    c4DB.studentExams = [] := by
  refine ⟨rfl, rfl, rfl⟩

/-- C4 (amended): every rejected `start` (any validation or entitlement
failure) leaves the state exactly unchanged; a rejected `create`, however,
leaves precisely the already-committed session row behind (no ledger row, no
other change), because the session row is committed before the entitlement
checks run. -/
theorem C4_error_frame (db : DB) (now : Int) (sid studentId examId : Nat)
    (st : ExamStatus) :
    (∀ e, (crudStartStudentExam db now sid).2 = Except.error e →
      (crudStartStudentExam db now sid).1 = db) ∧
    (∀ e, (crudCreateStudentExam db now studentId examId st).2
        = Except.error e →
      (crudCreateStudentExam db now studentId examId st).1
        = { db with
            studentExams := db.studentExams
              ++ [⟨db.nextStudentExamId, studentId, examId, st⟩],
            nextStudentExamId := db.nextStudentExamId + 1 }) := by
  constructor
  · intro e he
    rcases crudStart_shape db now sid with ⟨_, h⟩ | ⟨se, subId, db0, hok, _⟩
    · exact h
    · rw [hok] at he
      exact absurd he (by simp)
  · intro e he
    rcases crudCreate_shape db now studentId examId st with hok | ⟨_, h⟩
    · rw [hok] at he
      exact absurd he (by simp)
    · exact h

/-- Witness for C4 at a concrete rejected start and rejected create. -/
theorem C4_error_frame_witness :
    (crudStartStudentExam c4DB 0 5).1 = c4DB ∧
    (crudCreateStudentExam c4DB 0 7 1 ExamStatus.not_started).1
      = { c4DB with
          studentExams := [⟨0, 7, 1, ExamStatus.not_started⟩],
          nextStudentExamId := 1 } :=
  ⟨(C4_error_frame c4DB 0 5 7 1 ExamStatus.not_started).1
      Err.studentExamNotFound rfl,
   (C4_error_frame c4DB 0 5 7 1 ExamStatus.not_started).2
      Err.noActiveSubscription rfl⟩

/-! ### C6: a retake deletes answers but preserves the result history -/

/-- C6: any `start` call leaves the result table untouched (its row count for
the session never decreases and the attempt-number sequence is preserved),
and a successful retake (prior status not `not_started`) hard-deletes exactly
the session's submitted answers. -/
theorem C6_retake_preserves_results (db : DB) (now : Int) (sid : Nat) :
    (crudStartStudentExam db now sid).1.results = db.results ∧
    latestAttemptNumber (crudStartStudentExam db now sid).1.results sid
      = latestAttemptNumber db.results sid ∧
    (∀ se : StudentExam,
      db.studentExams.find? (fun s => s.id == sid) = some se →
      se.status ≠ ExamStatus.not_started →
      (crudStartStudentExam db now sid).2 = Except.ok () →
      (crudStartStudentExam db now sid).1.answers
        = db.answers.filter (fun a => a.studentExamId != sid)) := by
  have hres : (crudStartStudentExam db now sid).1.results = db.results := by
    rcases crudStart_shape db now sid with ⟨_, h⟩ | ⟨se, subId, db0, _, _, _, hr, _, _, h⟩
    · rw [h]
    · rw [h, finishStart_results, hr]
  refine ⟨hres, by rw [hres], ?_⟩
  intro se hfind hst hok
  rcases crudStart_shape db now sid with ⟨⟨e, he⟩, _⟩ | ⟨se', subId, db0, _, hfind', ha, _, _, _, h⟩
  · rw [hok] at he
    exact absurd he (by simp)
  · have hse : se' = se := by
      rw [hfind] at hfind'
      exact (Option.some_inj.mp hfind').symm
    rw [h, hse, finishStart_answers_retake _ _ _ _ _ hst, ha]

/-- A retake database: session 0 already completed once, with one stored
result row and two stale answers. -/
def c6DB : DB := {
  exams := [⟨1, none, none, 2⟩]
  examQuestions := []
  answerOptions := []
  subscriptions := [⟨1, 1, SubscriptionStatus.active, 10, some ⟨some 5⟩⟩]
  attempts := [⟨1, 1, 3⟩]
  studentExams := [⟨0, 1, 1, ExamStatus.completed⟩]
  answers := [⟨0, 1, none, true⟩, ⟨7, 2, none, false⟩]
  results := [⟨0, 1, 2, 1, 50, 10, 20, true⟩]
  nextStudentExamId := 1 }

/-- Witness for C6 at a concrete retake. -/
theorem C6_retake_preserves_results_witness :
    (crudStartStudentExam c6DB 0 0).1.results = c6DB.results ∧
    (crudStartStudentExam c6DB 0 0).1.answers
      = c6DB.answers.filter (fun a => a.studentExamId != 0) :=
  ⟨(C6_retake_preserves_results c6DB 0 0).1,
   (C6_retake_preserves_results c6DB 0 0).2.2 ⟨0, 1, 1, ExamStatus.completed⟩
     (by decide) (by decide) rfl⟩

/-! ### C7: attempt numbers are monotone per session, starting at 1 -/

/-- C7: every successful completion appends one result row for the session
with `attempt_number = (max existing attempt_number for the session) + 1`
(so 1 when no prior result exists), strictly greater than every previously
recorded attempt number for that session. -/
theorem C7_attempt_number_monotone (db : DB) (sid : Nat) (se : StudentExam)
    (exam : Exam)
    (h1 : db.studentExams.find? (fun s => s.id == sid) = some se)
    (h2 : db.exams.find? (fun e => e.id == se.examId) = some exam) :
    (crudCompleteStudentExam db sid).2 = Except.ok () ∧
    ∃ r : ExamResult,
      (crudCompleteStudentExam db sid).1.results = db.results ++ [r] ∧
      r.studentExamId = sid ∧
      r.attemptNumber = latestAttemptNumber db.results sid + 1 ∧
      (db.results.filter (fun x => x.studentExamId == sid) = [] →
        r.attemptNumber = 1) ∧
      ∀ r' ∈ db.results, r'.studentExamId = sid →
        r'.attemptNumber < r.attemptNumber := by
  rw [crudComplete_eq h1 h2]
  refine ⟨rfl, _, rfl, rfl, rfl, ?_, ?_⟩
  · intro hempty
    show latestAttemptNumber db.results sid + 1 = 1
    unfold latestAttemptNumber
    rw [hempty]
    rfl
  · intro r' hr' hsid
    show r'.attemptNumber < latestAttemptNumber db.results sid + 1
    apply Nat.lt_succ_of_le
    apply foldl_max_le_of_mem
    exact List.mem_map.mpr
      ⟨r', List.mem_filter.mpr ⟨hr', by simp [hsid]⟩, rfl⟩

/-- A database where session 0 already has results numbered 1 and 2. -/
def c7DB : DB := {
  exams := [⟨1, none, none, 2⟩]
  examQuestions := []
  answerOptions := []
  subscriptions := []
  attempts := []
  studentExams := [⟨0, 1, 1, ExamStatus.in_progress⟩]
  answers := []
  results := [⟨0, 1, 2, 0, 0, 0, 0, false⟩, ⟨0, 2, 2, 1, 50, 10, 20, true⟩]
  nextStudentExamId := 1 }

/-- Witness for C7 at a database with two prior attempts. -/
theorem C7_attempt_number_monotone_witness :
    (crudCompleteStudentExam c7DB 0).2 = Except.ok () :=
  (C7_attempt_number_monotone c7DB 0 ⟨0, 1, 1, ExamStatus.in_progress⟩
    ⟨1, none, none, 2⟩ (by decide) (by decide)).1

/-! ### C8: the `not_started → completed` transition -/

/-- A database with a single session still in `not_started`. -/
def c8DB : DB := {
  exams := [⟨1, none, none, 1⟩]
  examQuestions := []
  answerOptions := []
  subscriptions := []
  attempts := []
  studentExams := [⟨0, 1, 1, ExamStatus.not_started⟩]
  answers := []
  results := []
  nextStudentExamId := 1 }

/-- C8 counterexample: completing a session that is still `not_started`
succeeds and moves it directly to `completed` — the state machine does allow
`not_started → completed` without ever being `in_progress`. -/
theorem C8_not_started_to_completed_counterexample :
    c8DB.studentExams = [⟨0, 1, 1, ExamStatus.not_started⟩] ∧
    (crudCompleteStudentExam c8DB 0).2 = Except.ok () ∧
    (crudCompleteStudentExam c8DB 0).1.studentExams
      = [⟨0, 1, 1, ExamStatus.completed⟩] := by
  refine ⟨rfl, rfl, rfl⟩

/-- C8 (amended): `complete_student_exam` never checks the session's prior
status: whenever the session and its exam resolve, completion succeeds and
sets the status to `completed`, whatever the prior status was — in particular
a `not_started` session transitions directly to `completed`. -/
theorem C8_complete_ignores_status (db : DB) (sid : Nat) (se : StudentExam)
    (exam : Exam)
    (h1 : db.studentExams.find? (fun s => s.id == sid) = some se)
    (h2 : db.exams.find? (fun e => e.id == se.examId) = some exam) :
    (crudCompleteStudentExam db sid).2 = Except.ok () ∧
    (crudCompleteStudentExam db sid).1.studentExams
      = updateFirst (fun s => s.id == sid)
          (fun s => { s with status := ExamStatus.completed })
          db.studentExams := by
  rw [crudComplete_eq h1 h2]
  exact ⟨rfl, rfl⟩

/-- Witness for C8 at the `not_started` session of `c8DB`. -/
theorem C8_complete_ignores_status_witness :
    (crudCompleteStudentExam c8DB 0).2 = Except.ok () ∧
    (crudCompleteStudentExam c8DB 0).1.studentExams
      = updateFirst (fun s => s.id == 0)
          (fun s => { s with status := ExamStatus.completed })
          c8DB.studentExams :=
  C8_complete_ignores_status c8DB 0 ⟨0, 1, 1, ExamStatus.not_started⟩
    ⟨1, none, none, 1⟩ (by decide) (by decide)

/-! ### C9: the two get-remaining-attempts operations -/

/-- A database with an active subscription on a plan allowing 2 exam attempts
and no ledger row for exam 5. -/
def c9DB : DB := {
  exams := [⟨5, none, none, 1⟩]
  examQuestions := []
  answerOptions := []
  subscriptions := [⟨1, 1, SubscriptionStatus.active, 10, some ⟨some 2⟩⟩]
  attempts := []
  studentExams := []
  answers := []
  results := []
  nextStudentExamId := 0 }

/-- C9 counterexample: with no ledger row, the ledger-layer
`get_remaining_attempts` returns 0, not the plan's configured maximum (2). -/
theorem C9_crud_returns_zero_counterexample :
    c9DB.attempts.find? (attemptKey 1 5) = none ∧
    c9DB.subscriptions.map (fun s => s.plan) = [some ⟨some 2⟩] ∧
    effectiveMaxExams ⟨some 2⟩ = 2 ∧
    getRemainingAttempts c9DB 1 5 = 0 ∧
    getRemainingAttempts c9DB 1 5 ≠ 2 := by
  refine ⟨rfl, rfl, rfl, rfl, by decide⟩

/-- C9 (amended): the CRUD helper `get_remaining_attempts` returns the stored
value when a ledger row exists and `0` (not the plan maximum) when none
exists; it is the HTTP route `GET /{exam_id}/attempts` that returns the
plan's `max_exams or 1` when no ledger row exists yet, and the stored value
otherwise. -/
theorem C9_remaining_attempts (db : DB) (now : Int)
    (userId examId subId : Nat) (sub : UserSubscription)
    (plan : SubscriptionPlan) :
    (∀ att, db.attempts.find? (attemptKey subId examId) = some att →
      getRemainingAttempts db subId examId = att.remainingAttempts) ∧
    (db.attempts.find? (attemptKey subId examId) = none →
      getRemainingAttempts db subId examId = 0) ∧
    (findActiveSubscription db userId now = some sub →
      sub.plan = some plan →
      (db.attempts.find? (attemptKey sub.id examId) = none →
        routeGetRemainingAttempts db now userId examId
          = Except.ok (effectiveMaxExams plan, effectiveMaxExams plan)) ∧
      (∀ att, db.attempts.find? (attemptKey sub.id examId) = some att →
        routeGetRemainingAttempts db now userId examId
          = Except.ok (att.remainingAttempts, effectiveMaxExams plan))) := by
  refine ⟨?_, ?_, ?_⟩
  · intro att h
    simp only [getRemainingAttempts, h]
  · intro h
    simp only [getRemainingAttempts, h]
  · intro hsub hplan
    constructor
    · intro h
      simp only [routeGetRemainingAttempts, hsub, hplan, h]
    · intro att h
      simp only [routeGetRemainingAttempts, hsub, hplan, h]

/-- Witness for C9 at `c9DB`: no ledger row, plan maximum 2. -/
theorem C9_remaining_attempts_witness :
    getRemainingAttempts c9DB 1 5 = 0 ∧
    routeGetRemainingAttempts c9DB 0 1 5 = Except.ok (2, 2) :=
  ⟨(C9_remaining_attempts c9DB 0 1 5 1 ⟨1, 1, SubscriptionStatus.active, 10,
      some ⟨some 2⟩⟩ ⟨some 2⟩).2.1 (by decide),
   ((C9_remaining_attempts c9DB 0 1 5 1 ⟨1, 1, SubscriptionStatus.active, 10,
      some ⟨some 2⟩⟩ ⟨some 2⟩).2.2 (by decide) (by decide)).1 (by decide)⟩

/-! ### C10: the subscription expiry sweeper -/

theorem chunksGo_join (n : Nat) (hn : 0 < n) :
    ∀ (fuel : Nat) (l : List α), l.length ≤ fuel →
      (chunksGo n fuel l).flatten = l := by
  intro fuel
  induction fuel with
  | zero =>
    intro l hl
    have hnil : l = [] := List.eq_nil_of_length_eq_zero (Nat.le_zero.mp hl)
    subst hnil
    rfl
  | succ f ih =>
    intro l hl
    cases l with
    | nil => rfl
    | cons x xs =>
      have hfuel : ((x :: xs).drop n).length ≤ f := by
        rw [List.length_drop]
        simp only [List.length_cons] at hl ⊢
        omega
      show (((x :: xs).take n) :: chunksGo n f ((x :: xs).drop n)).flatten
        = x :: xs
      rw [List.flatten_cons, ih _ hfuel, List.take_append_drop]

theorem chunksOf_join (n : Nat) (hn : 0 < n) (l : List α) :
    (chunksOf n l).flatten = l := by
  unfold chunksOf
  rw [if_neg (Nat.pos_iff_ne_zero.mp hn)]
  exact chunksGo_join n hn l.length l le_rfl

theorem flip_expired_eq {t : UserSubscription}
    (h : t.status = SubscriptionStatus.expired) :
    { t with status := SubscriptionStatus.expired } = t := by
  cases t
  simp_all

theorem markBatchExpired_mem_flip {db : DB} {s : UserSubscription}
    (hs : s ∈ db.subscriptions) {batch : List Nat} (hc : s.id ∈ batch) :
    { s with status := SubscriptionStatus.expired }
      ∈ (markBatchExpired db batch).subscriptions := by
  unfold markBatchExpired
  refine List.mem_map.mpr ⟨s, hs, ?_⟩
  rw [if_pos (List.elem_eq_true_of_mem hc)]

theorem markBatchExpired_mem_keep {db : DB} {s : UserSubscription}
    (hs : s ∈ db.subscriptions) {batch : List Nat} (hc : s.id ∉ batch) :
    s ∈ (markBatchExpired db batch).subscriptions := by
  unfold markBatchExpired
  refine List.mem_map.mpr ⟨s, hs, ?_⟩
  rw [if_neg]
  intro h
  exact hc (List.mem_of_elem_eq_true h)

theorem markBatchExpired_mem_expired {db : DB} {t : UserSubscription}
    (ht : t ∈ db.subscriptions) (h : t.status = SubscriptionStatus.expired)
    (batch : List Nat) :
    t ∈ (markBatchExpired db batch).subscriptions := by
  unfold markBatchExpired
  refine List.mem_map.mpr ⟨t, ht, ?_⟩
  by_cases hc : batch.contains t.id = true
  · rw [if_pos hc, flip_expired_eq h]
  · rw [if_neg hc]

theorem foldMark_mem_expired :
    ∀ (batches : List (List Nat)) (db : DB) (t : UserSubscription),
      t ∈ db.subscriptions → t.status = SubscriptionStatus.expired →
      t ∈ (batches.foldl markBatchExpired db).subscriptions := by
  intro batches
  induction batches with
  | nil => intro db t ht _; exact ht
  | cons b bs ih =>
    intro db t ht h
    exact ih _ _ (markBatchExpired_mem_expired ht h b) h

theorem foldMark_flips :
    ∀ (batches : List (List Nat)) (db : DB) (s : UserSubscription),
      s ∈ db.subscriptions → s.id ∈ batches.flatten →
      { s with status := SubscriptionStatus.expired }
        ∈ (batches.foldl markBatchExpired db).subscriptions := by
  intro batches
  induction batches with
  | nil =>
    intro db s _ hid
    simp at hid
  | cons b bs ih =>
    intro db s hs hid
    rw [List.flatten_cons] at hid
    by_cases hc : s.id ∈ b
    · exact foldMark_mem_expired bs _ _
        (markBatchExpired_mem_flip hs hc) rfl
    · have hid' : s.id ∈ bs.flatten := by
        rcases List.mem_append.mp hid with h | h
        · exact absurd h hc
        · exact h
      exact ih _ _ (markBatchExpired_mem_keep hs hc) hid'

theorem enum_foldl_mark (batches : List (List Nat)) :
    ∀ (n : Nat) (db : DB) (c : Nat),
      ((List.enumFrom n batches).foldl
        (fun acc ib =>
          if ([] : List Nat).contains ib.1 = true then
            (acc.1, acc.2 + ib.2.length)
          else (markBatchExpired acc.1 ib.2, acc.2 + ib.2.length)) (db, c)).1
        = batches.foldl markBatchExpired db := by
  induction batches with
  | nil => intro n db c; rfl
  | cons b bs ih =>
    intro n db c
    simp only [List.enumFrom, List.foldl_cons]
    rw [if_neg (by simp)]
    exact ih (n + 1) _ _

/-- 150 eligible rows: all active with an end date in the past. -/
def c10DB : DB := {
  exams := []
  examQuestions := []
  answerOptions := []
  subscriptions := (List.range 150).map
    (fun i => ⟨i, 1, SubscriptionStatus.active, -1, none⟩)
  attempts := []
  studentExams := []
  answers := []
  results := []
  nextStudentExamId := 0 }

set_option maxRecDepth 20000 in
/-- C10: a sweeper run with no batch failure flips every eligible row
(active with `end_date < now`) to `expired`; on the concrete 150-row store,
a run with a failure injected into the second batch still leaves the first
batch's 100 rows committed as `expired` while the failed batch's 50 rows are
rolled back, and a clean run flips all 150. -/
theorem C10_sweeper_batches :
    (∀ (db : DB) (now : Int) (s : UserSubscription),
      s ∈ db.subscriptions → eligibleExpired s now = true →
      { s with status := SubscriptionStatus.expired }
        ∈ (updateExpiredSubscriptions db now []).1.subscriptions) ∧
    c10DB.subscriptions.length = 150 ∧
    c10DB.subscriptions.all (fun s => eligibleExpired s 0) = true ∧
    (updateExpiredSubscriptions c10DB 0 []).1.subscriptions.all
      (fun s => s.status == SubscriptionStatus.expired) = true ∧
    ((updateExpiredSubscriptions c10DB 0 [1]).1.subscriptions.take 100).all
      (fun s => s.status == SubscriptionStatus.expired) = true ∧
    ((updateExpiredSubscriptions c10DB 0 [1]).1.subscriptions.drop 100).all
      (fun s => s.status == SubscriptionStatus.active) = true := by
  refine ⟨?_, by decide, by decide, by decide, by decide, by decide⟩
  intro db now s hs helig
  have hid : s.id ∈ (db.subscriptions.filter
      (fun x => eligibleExpired x now)).map (fun x => x.id) :=
    List.mem_map.mpr ⟨s, List.mem_filter.mpr ⟨hs, helig⟩, rfl⟩
  unfold updateExpiredSubscriptions
  dsimp only
  split
  · next hempty =>
    rw [List.isEmpty_iff] at hempty
    rw [hempty] at hid
    simp at hid
  · next hne =>
    simp only [List.enum]
    rw [enum_foldl_mark]
    apply foldMark_flips
    · exact hs
    · rw [chunksOf_join 100 (by norm_num)]
      exact hid

/-- A one-row store for the C10 witness. -/
def c10wDB : DB := {
  exams := []
  examQuestions := []
  answerOptions := []
  subscriptions := [⟨3, 1, SubscriptionStatus.active, -5, none⟩]
  attempts := []
  studentExams := []
  answers := []
  results := []
  nextStudentExamId := 0 }

/-- Witness for C10's universal part at a one-row store. -/
theorem C10_sweeper_batches_witness :
    (⟨3, 1, SubscriptionStatus.expired, -5, none⟩ : UserSubscription)
      ∈ (updateExpiredSubscriptions c10wDB 0 []).1.subscriptions :=
  C10_sweeper_batches.1 c10wDB 0 ⟨3, 1, SubscriptionStatus.active, -5, none⟩
    (by decide) (by decide)

/-! ### C2: the max_exams = 2 end-to-end scenario -/

/-- The C2 scenario store: a plan with `max_exams = 2`, an exam with two
50-mark questions, no prior session or ledger row. -/
def c2DB : DB := {
  exams := [⟨1, none, none, 2⟩]
  examQuestions := [⟨1, 1, 50⟩, ⟨1, 2, 50⟩]
  answerOptions := [⟨1, true⟩, ⟨2, true⟩]
  subscriptions := [⟨1, 1, SubscriptionStatus.active, 100, some ⟨some 2⟩⟩]
  attempts := []
  studentExams := []
  answers := []
  results := []
  nextStudentExamId := 0 }

/-- State after the create endpoint (session 0 created, ledger raised to 2). -/
def c2AfterCreate : DB := (routeCreateStudentExam c2DB 0 1 1 1).1

/-- State after the first start (ledger 2 → 1). -/
def c2AfterStart : DB := (crudStartStudentExam c2AfterCreate 0 0).1

/-- State after both questions are answered (correctly). -/
def c2AfterAnswers : DB :=
  crudCreateStudentAnswer
    (crudCreateStudentAnswer c2AfterStart 0 1 (some 1)) 0 2 (some 2)

/-- State after completion. -/
def c2AfterComplete : DB := (crudCompleteStudentExam c2AfterAnswers 0).1

theorem c2AfterAnswers_eq : c2AfterAnswers = {
    exams := [⟨1, none, none, 2⟩]
    examQuestions := [⟨1, 1, 50⟩, ⟨1, 2, 50⟩]
    answerOptions := [⟨1, true⟩, ⟨2, true⟩]
    subscriptions := [⟨1, 1, SubscriptionStatus.active, 100, some ⟨some 2⟩⟩]
    attempts := [⟨1, 1, 1⟩]
    studentExams := [⟨0, 1, 1, ExamStatus.in_progress⟩]
    answers := [⟨0, 1, some 1, true⟩, ⟨0, 2, some 2, true⟩]
    results := []
    nextStudentExamId := 1 } := by
  rfl

/-- C2 counterexample: after create → start → complete on the
`max_exams = 2` plan, the second start call does NOT fail — the create
endpoint had raised the ledger to 2 (see C3), so the second start succeeds
(ledger 1 → 0). -/
theorem C2_second_start_succeeds_counterexample :
    (crudStartStudentExam c2AfterComplete 0 0).2 = Except.ok () ∧
    (crudStartStudentExam c2AfterComplete 0 0).2
      ≠ Except.error Err.noRemainingAttempts := by
  constructor
  · rfl
  · rw [show (crudStartStudentExam c2AfterComplete 0 0).2 = Except.ok ()
      from rfl]
    simp

/-- C2 (amended): in the scenario the recorded result is
`obtained_marks = 100, max_marks = 100, score_percentage = 100, passed = true,
attempt_number = 1` as claimed, but the ledger after the create endpoint holds
2 (not 1) and after the first start holds 1 (not 0); the second start call
therefore succeeds, and it is the third start call that fails with the
no-remaining-attempts error. -/
theorem C2_scenario :
    (routeCreateStudentExam c2DB 0 1 1 1).2 = Except.ok 0 ∧
    c2AfterCreate.attempts = [⟨1, 1, 2⟩] ∧
    (crudStartStudentExam c2AfterCreate 0 0).2 = Except.ok () ∧
    c2AfterStart.attempts = [⟨1, 1, 1⟩] ∧
    (crudCompleteStudentExam c2AfterAnswers 0).2 = Except.ok () ∧
    c2AfterComplete.results = [⟨0, 1, 2, 2, 100, 100, 100, true⟩] ∧
    (crudStartStudentExam c2AfterComplete 0 0).2 = Except.ok () ∧
    (crudStartStudentExam (crudStartStudentExam c2AfterComplete 0 0).1 0 0).2
      = Except.error Err.noRemainingAttempts := by
  refine ⟨rfl, rfl, rfl, rfl, rfl, ?_, rfl, rfl⟩
  show (crudCompleteStudentExam c2AfterAnswers 0).1.results = _
  rw [c2AfterAnswers_eq]
  simp +decide [crudCompleteStudentExam, computeScore, correctEqsOf,
    obtainedMarksOf, maxMarksFor, avgMarkPerQuestion, totalPossibleMarks,
    scorePctOf, marksFor, answeredCorrectly, lastAnswerFor,
    latestAttemptNumber, updateFirst, List.find?, List.filter]
  norm_num [round2_ofNat, round2_round2]

/-! ### C3: the create endpoint leaves the ledger at M, giving M starts -/

/-- A fresh store parameterized by the plan's `max_exams` value. -/
def freshDB (M : Int) : DB := {
  exams := [⟨1, none, none, 1⟩]
  examQuestions := []
  answerOptions := []
  subscriptions := [⟨1, 1, SubscriptionStatus.active, 0, some ⟨some M⟩⟩]
  attempts := []
  studentExams := []
  answers := []
  results := []
  nextStudentExamId := 0 }

/-- The fresh store after the create endpoint. -/
def freshCreated (M : Int) : DB := (routeCreateStudentExam (freshDB M) 0 1 1 1).1

/-- Iterate `start_student_exam` on session 0 at time 0. -/
def iterStart : Nat → DB → DB
  | 0, db => db
  | n + 1, db => (crudStartStudentExam (iterStart n db) 0 0).1

/-- The fresh store with session 0 present, ledger at `r`, status `st`. -/
def freshState (M r : Int) (st : ExamStatus) : DB := {
  exams := [⟨1, none, none, 1⟩]
  examQuestions := []
  answerOptions := []
  subscriptions := [⟨1, 1, SubscriptionStatus.active, 0, some ⟨some M⟩⟩]
  attempts := [⟨1, 1, r⟩]
  studentExams := [⟨0, 1, 1, st⟩]
  answers := []
  results := []
  nextStudentExamId := 1 }

theorem freshCreated_eq (M : Int) (hM : 1 ≤ M) :
    freshCreated M = freshState M M ExamStatus.not_started := by
  have h0 : ¬ (M = 0) := by omega
  have h1 : M - 1 < M := by omega
  simp +decide [freshCreated, freshDB, freshState, routeCreateStudentExam,
    crudCreateStudentExam, createOrUpdateExamAttempt, findActiveSubscription,
    effectiveMaxExams, attemptKey, updateFirst, List.find?, h0, h1,
    show (SubscriptionStatus.active == SubscriptionStatus.active) = true
      from rfl]

theorem start_step (M r : Int) (st : ExamStatus) (hr : 0 < r) :
    crudStartStudentExam (freshState M r st) 0 0
      = (freshState M (r - 1) ExamStatus.in_progress, Except.ok ()) := by
  have h1 : ¬ (r ≤ 0) := by omega
  cases st <;>
    simp +decide [crudStartStudentExam, freshState, findActiveSubscription,
      startNotReached, endPassed, finishStart, updateFirst, attemptKey,
      List.find?, h1,
      show (SubscriptionStatus.active == SubscriptionStatus.active) = true
        from rfl]

theorem start_exhausted (M r : Int) (st : ExamStatus) (hr : r ≤ 0) :
    crudStartStudentExam (freshState M r st) 0 0
      = (freshState M r st, Except.error Err.noRemainingAttempts) := by
  simp +decide [crudStartStudentExam, freshState, findActiveSubscription,
    startNotReached, endPassed, attemptKey, List.find?, hr,
    show (SubscriptionStatus.active == SubscriptionStatus.active) = true
      from rfl]

theorem iterStart_fresh (M : Int) (hM : 1 ≤ M) (k : Nat) (hk : (k : Int) ≤ M) :
    iterStart k (freshCreated M)
      = freshState M (M - k)
          (if k = 0 then ExamStatus.not_started else ExamStatus.in_progress) := by
  induction k with
  | zero =>
    simpa using freshCreated_eq M hM
  | succ n ih =>
    have hn : (n : Int) ≤ M := by push_cast at hk ⊢; omega
    have hr : 0 < M - (n : Int) := by push_cast at hk; omega
    rw [iterStart, ih hn, start_step _ _ _ hr]
    have hcast : M - (n : Int) - 1 = M - ((n + 1 : Nat) : Int) := by
      push_cast
      ring
    rw [hcast]
    simp

/-- C3: for a fresh create through the endpoint (no existing session, no
ledger row, active subscription resolving to a plan with effective
`max_exams = M`), the resulting ledger row holds `remaining_attempts = M`
(CRUD seeds `M - 1`, then `create_or_update_exam_attempt` raises it to `M`);
consequently, on the canonical fresh store, a student gets exactly `M`
successful starts: starts 1..M succeed and start `M + 1` is rejected with the
no-remaining-attempts error. -/
theorem C3_create_seeds_full_attempts (db : DB) (now : Int)
    (studentId examId : Nat) (sub : UserSubscription)
    (plan : SubscriptionPlan) (M : Int)
    (hexam : (db.exams.find? (fun e => e.id == examId)).isSome)
    (hnosess : db.studentExams.find?
      (fun se => se.studentId == studentId && se.examId == examId) = none)
    (hsub : findActiveSubscription db studentId now = some sub)
    (hplan : sub.plan = some plan)
    (hM : effectiveMaxExams plan = M)
    (hnoledger : db.attempts.find? (attemptKey sub.id examId) = none) :
    ((routeCreateStudentExam db now studentId studentId examId).2
        = Except.ok db.nextStudentExamId ∧
      (routeCreateStudentExam db now studentId studentId examId).1.attempts.find?
        (attemptKey sub.id examId) = some ⟨sub.id, examId, M⟩) ∧
    (∀ N : Int, 1 ≤ N →
      (∀ k : Nat, (k : Int) < N →
        (crudStartStudentExam (iterStart k (freshCreated N)) 0 0).2
          = Except.ok ()) ∧
      ∀ k : Nat, (k : Int) = N →
        (crudStartStudentExam (iterStart k (freshCreated N)) 0 0).2
          = Except.error Err.noRemainingAttempts) := by
  subst hM
  constructor
  · obtain ⟨ex, hex⟩ := Option.isSome_iff_exists.mp hexam
    have hkey : attemptKey sub.id examId
        ⟨sub.id, examId, effectiveMaxExams plan - 1⟩ = true := by
      simp [attemptKey]
    have hkeep : ∀ a : ExamAttempt, attemptKey sub.id examId
        ({ a with remainingAttempts := effectiveMaxExams plan } : ExamAttempt)
        = attemptKey sub.id examId a := by
      intro a
      simp [attemptKey]
    have hfind : (db.attempts
        ++ [(⟨sub.id, examId, effectiveMaxExams plan - 1⟩ : ExamAttempt)]).find?
        (attemptKey sub.id examId)
        = some ⟨sub.id, examId, effectiveMaxExams plan - 1⟩ :=
      find?_append_singleton hnoledger hkey
    have hlt : effectiveMaxExams plan - 1 < effectiveMaxExams plan := by omega
    have hgen : ∀ db' : DB, db'.attempts = db.attempts
        ++ [(⟨sub.id, examId, effectiveMaxExams plan - 1⟩ : ExamAttempt)] →
        (createOrUpdateExamAttempt db' sub.id examId
          (effectiveMaxExams plan)).attempts.find? (attemptKey sub.id examId)
          = some ⟨sub.id, examId, effectiveMaxExams plan⟩ := by
      intro db' hatt
      unfold createOrUpdateExamAttempt
      rw [hatt]
      simp only [hfind]
      rw [if_pos hlt]
      dsimp only
      rw [updateFirst_find?_same hkeep, hfind]
      rfl
    have hroute : routeCreateStudentExam db now studentId studentId examId
        = (createOrUpdateExamAttempt
            { db with
              studentExams := db.studentExams ++ [⟨db.nextStudentExamId,
                studentId, examId, ExamStatus.not_started⟩],
              attempts := db.attempts
                ++ [⟨sub.id, examId, effectiveMaxExams plan - 1⟩],
              nextStudentExamId := db.nextStudentExamId + 1 }
            sub.id examId (effectiveMaxExams plan),
          Except.ok db.nextStudentExamId) := by
      unfold routeCreateStudentExam
      rw [if_neg (by simp)]
      simp only [hex, hnosess, hsub, hplan,
        crudCreate_ok db now studentId examId ExamStatus.not_started sub plan
          hsub hplan]
    rw [hroute]
    exact ⟨rfl, hgen _ rfl⟩
  · intro N hN
    constructor
    · intro k hk
      rw [iterStart_fresh N hN k (le_of_lt hk)]
      rw [start_step _ _ _ (by omega)]
    · intro k hk
      rw [iterStart_fresh N hN k (le_of_eq hk)]
      rw [start_exhausted _ _ _ (by omega)]

/-- Witness for C3 at a fresh concrete store with `max_exams = 3`. -/
theorem C3_create_seeds_full_attempts_witness :
    (routeCreateStudentExam (freshDB 3) 0 1 1 1).2 = Except.ok 0 ∧
    (routeCreateStudentExam (freshDB 3) 0 1 1 1).1.attempts.find?
      (attemptKey 1 1) = some ⟨1, 1, 3⟩ :=
  (C3_create_seeds_full_attempts (freshDB 3) 0 1 1
    ⟨1, 1, SubscriptionStatus.active, 0, some ⟨some 3⟩⟩ ⟨some 3⟩ 3
    (by decide) (by decide) (by decide) (by decide) (by decide)
    (by decide)).1

end LMS
